import Mathlib

/-!
Verification development for the excel4node worksheet-serialization core.

Embedded source files:
* `src/source/lib/worksheet/classes/dataValidation.ts` — the `DataValidation`
  class (constructor validation/normalization, `cleanFormula`, attribute
  emission in `addToXMLele`).
* `src/unnamed/part_000` — the worksheet XML pipeline (`_addSheetData`,
  `_addSheetProtection`, `_addAutoFilter`, …) and the `Workbook` registries
  (`createStyle`, `getStringIndex`).

JavaScript runtime values that flow through the loosely typed option bags are
modelled by the inductive `JsVal` (booleans, integer numbers, strings, null).
Fallible constructors are modelled with `Except String`.
-/

namespace Excel4Node

/-- A JavaScript runtime value as it can appear in an options bag: a boolean,
a number (restricted to integers, which covers every value the source and the
spec discuss), a string, or `null`. -/
inductive JsVal where
  | jb (b : Bool)
  | jn (n : Int)
  | js (s : String)
  | jnull
deriving DecidableEq, Repr

/-- The JS `Number()` conversion applied to a string, on the fragment needed
here: an empty/whitespace string converts to 0, an optionally signed decimal
integer literal converts to its value, and every other string is treated as
NaN (`none`).  (Exotic numeric literal forms — hex, decimals, exponents — are
outside the convertible fragment modelled here.) -/
def jsStrToNum (s : String) : Option Int :=
  let t := s.trim
  if t = "" then some 0
  else if t.startsWith "-" then (String.toNat? (t.drop 1)).map (fun n => -(n : Int))
  else if t.startsWith "+" then (String.toNat? (t.drop 1)).map (fun n => (n : Int))
  else (String.toNat? t).map (fun n => (n : Int))

/-- The JS `Number()` conversion: `true ↦ 1`, `false ↦ 0`, numbers unchanged,
`null ↦ 0`, strings per `jsStrToNum`; `none` is NaN. -/
def jsNumber : JsVal → Option Int
  | .jb b => some (if b then 1 else 0)
  | .jn n => some n
  | .js s => jsStrToNum s
  | .jnull => some 0

/-- The two sequential coercion statements of each boolean block of the
`DataValidation` constructor:
`if (Number(x) === 1) x = true; if (Number(x) === 0) x = false;`. -/
def coerceBoolVal (v : JsVal) : JsVal :=
  let v1 := if jsNumber v = some 1 then JsVal.jb true else v
  if jsNumber v1 = some 0 then JsVal.jb false else v1

/-- Whether an `Except` computation succeeded. -/
def isOkE {α : Type} : Except String α → Bool
  | .ok _ => true
  | .error _ => false

/-- Sequencing of fallible steps (`Except` bind, written out so proofs can
unfold it directly). -/
def andThenE {α β : Type} (x : Except String α) (f : α → Except String β) : Except String β :=
  match x with
  | .error e => .error e
  | .ok a => f a

/-- Equality of `Except` results is decidable, so witnesses can evaluate the
embedded operations on concrete inputs. -/
instance {ε α : Type} [DecidableEq ε] [DecidableEq α] : DecidableEq (Except ε α) := fun x y => by
  cases x <;> cases y
  case error.error a b =>
    exact if h : a = b then isTrue (by rw [h]) else isFalse (by intro hc; injection hc; contradiction)
  case ok.ok a b =>
    exact if h : a = b then isTrue (by rw [h]) else isFalse (by intro hc; injection hc; contradiction)
  case error.ok a b => exact isFalse (by intro hc; cases hc)
  case ok.error a b => exact isFalse (by intro hc; cases hc)

/-! ## DataValidation (src/source/lib/worksheet/classes/dataValidation.ts) -/

/-- `cleanFormula` (dataValidation.ts lines 3–8): a number is returned as is
(rendered in decimal by the XML text writer), a string starting with `=` is
returned bare, any other string is wrapped in literal double quotes.  Calling
it on a non-number non-string would crash (`f.substr` undefined), modelled as
`none`. -/
def cleanFormula : JsVal → Option String
  | .jn n => some (toString n)
  | .js s => some (if s.take 1 = "=" then s else "\"" ++ s ++ "\"")
  | _ => none

/-- The options bag accepted by the `DataValidation` constructor.  Every field
is optional (`undefined` is `none`) and, at runtime, may hold any JS value. -/
structure DVOpts where
  sqref : Option JsVal := none
  formulas : Option (List JsVal) := none
  allowBlank : Option JsVal := none
  errorStyle : Option JsVal := none
  error : Option JsVal := none
  errorTitle : Option JsVal := none
  imeMode : Option JsVal := none
  operator : Option JsVal := none
  prompt : Option JsVal := none
  promptTitle : Option JsVal := none
  showDropDown : Option JsVal := none
  showErrorMessage : Option JsVal := none
  showInputMessage : Option JsVal := none
  type : Option JsVal := none
deriving DecidableEq, Repr

/-- A constructed `DataValidation` rule: the fields assigned to `this` by the
constructor, after validation and normalization. -/
structure DataValidation where
  sqref : JsVal
  formula1 : Option JsVal := none
  formula2 : Option JsVal := none
  allowBlank : Option Bool := none
  errorStyle : Option String := none
  error : Option String := none
  showErrorMessage : Option Bool := none
  errorTitle : Option String := none
  imeMode : Option String := none
  operator : Option String := none
  prompt : Option String := none
  showInputMessage : Option Bool := none
  promptTitle : Option String := none
  showDropDown : Option Bool := none
  type : Option String := none
deriving DecidableEq, Repr

def errorStyleEnums : List String := ["stop", "warning", "information"]

def imeModeEnums : List String :=
  ["noControl", "off", "on", "disabled", "hiragana", "fullKatakana",
   "halfKatakana", "fullAlpha", "halfAlpha", "fullHangul", "halfHangul"]

def operatorEnums : List String :=
  ["between", "notBetween", "equal", "notEqual", "lessThan",
   "lessThanOrEqual", "greaterThan", "greaterThanOrEqual"]

def typeEnums : List String :=
  ["none", "whole", "decimal", "list", "date", "time", "textLength", "custom"]

/-- One boolean-coercible block of the constructor.  Returns the value stored
on `this` and the value written back to the caller's `opts` field (the source
mutates `opts` in place during coercion). -/
def checkOptBool (name : String) : Option JsVal → Except String (Option Bool × Option JsVal)
  | none => .ok (none, none)
  | some v =>
    match coerceBoolVal v with
    | .jb b => .ok (some b, some (.jb b))
    | _ => .error ("DataValidation " ++ name ++ " must be true, false, 1 or 0")

/-- One enumerated block of the constructor: `enums.indexOf(value) < 0` throws,
so only a string contained in the closed set passes. -/
def checkOptEnum (name : String) (enums : List String) :
    Option JsVal → Except String (Option String)
  | none => .ok none
  | some (.js s) =>
    if s ∈ enums then .ok (some s)
    else .error ("DataValidation " ++ name ++ " must be one of " ++ String.intercalate ", " enums)
  | some _ =>
    .error ("DataValidation " ++ name ++ " must be one of " ++ String.intercalate ", " enums)

/-- One text block of the constructor: `typeof value !== 'string'` throws. -/
def checkOptStr (name : String) : Option JsVal → Except String (Option String)
  | none => .ok none
  | some (.js s) => .ok (some s)
  | some _ => .error ("DataValidation " ++ name ++ " must be a string")

/-- The `DataValidation` constructor (dataValidation.ts lines 72–249), blocks
in source order: sqref, formulas, allowBlank, errorStyle, error, errorTitle,
imeMode, operator, prompt, promptTitle, showDropDown, showErrorMessage,
showInputMessage, type.  It returns both the constructed rule and the final
state of the caller's `opts` object, which the constructor mutates (boolean
coercions write back; the error/errorTitle blocks execute
`this.showErrorMessage = opts.showErrorMessage = true`, and the
prompt/promptTitle blocks do the same for `showInputMessage`). -/
def dvConstruct (o0 : DVOpts) : Except String (DataValidation × DVOpts) :=
  match o0.sqref with
  | none => .error "sqref must be specified when creating a DataValidation instance."
  | some sqref =>
    let formula1 := o0.formulas.bind (fun fs => fs[0]?)
    let formula2 := o0.formulas.bind (fun fs => fs[1]?)
    andThenE (checkOptBool "allowBlank" o0.allowBlank) fun ab =>
    let o1 := { o0 with allowBlank := ab.2 }
    andThenE (checkOptEnum "errorStyle" errorStyleEnums o1.errorStyle) fun errorStyle =>
    andThenE (checkOptStr "error" o1.error) fun error =>
    let semA : Option Bool := if o1.error.isSome then some true else none
    let o2 := { o1 with showErrorMessage :=
      if o1.error.isSome then some (.jb true) else o1.showErrorMessage }
    andThenE (checkOptStr "errorTitle" o2.errorTitle) fun errorTitle =>
    let semB := if o2.errorTitle.isSome then some true else semA
    let o3 := { o2 with showErrorMessage :=
      if o2.errorTitle.isSome then some (.jb true) else o2.showErrorMessage }
    andThenE (checkOptEnum "imeMode" imeModeEnums o3.imeMode) fun imeMode =>
    andThenE (checkOptEnum "operator" operatorEnums o3.operator) fun operatorV =>
    andThenE (checkOptStr "prompt" o3.prompt) fun prompt =>
    let simA : Option Bool := if o3.prompt.isSome then some true else none
    let o4 := { o3 with showInputMessage :=
      if o3.prompt.isSome then some (.jb true) else o3.showInputMessage }
    andThenE (checkOptStr "promptTitle" o4.promptTitle) fun promptTitle =>
    let simB := if o4.promptTitle.isSome then some true else simA
    let o5 := { o4 with showInputMessage :=
      if o4.promptTitle.isSome then some (.jb true) else o4.showInputMessage }
    andThenE (checkOptBool "showDropDown" o5.showDropDown) fun sdd =>
    let o6 := { o5 with showDropDown := sdd.2 }
    andThenE (checkOptBool "showErrorMessage" o6.showErrorMessage) fun sem =>
    let o7 := { o6 with showErrorMessage := sem.2 }
    let semFinal := match sem.1 with | some b => some b | none => semB
    andThenE (checkOptBool "showInputMessage" o7.showInputMessage) fun sim =>
    let o8 := { o7 with showInputMessage := sim.2 }
    let simFinal := match sim.1 with | some b => some b | none => simB
    andThenE (checkOptEnum "type" typeEnums o8.type) fun typeV =>
    .ok ({ sqref := sqref, formula1 := formula1, formula2 := formula2,
           allowBlank := ab.1, errorStyle := errorStyle, error := error,
           showErrorMessage := semFinal, errorTitle := errorTitle,
           imeMode := imeMode, operator := operatorV, prompt := prompt,
           showInputMessage := simFinal, promptTitle := promptTitle,
           showDropDown := sdd.1, type := typeV }, o8)

/-- Modelled from the spec: `utils.boolToInt` (the utils module is not under
src); its uses in the source write `1` for true and `0` for false. -/
def boolToInt (b : Bool) : Nat := if b then 1 else 0

/-- How xmlbuilder stringifies a JS value passed as an attribute value. -/
def jsValToString : JsVal → String
  | .jb b => if b then "true" else "false"
  | .jn n => toString n
  | .js s => s
  | .jnull => "null"

/-- An attribute emitted only when the value is present (`x !== undefined`). -/
def optAttr (name : String) : Option String → List (String × String)
  | none => []
  | some s => [(name, s)]

/-- The attribute list written by `DataValidation.addToXMLele`
(dataValidation.ts lines 251–282), in source order.  Note the `showDropDown`
special case at line 267: the attribute is emitted (with value 1) only when
the field is explicitly `false`. -/
def dvAttrs (dv : DataValidation) : List (String × String) :=
  optAttr "type" dv.type ++
  optAttr "errorStyle" dv.errorStyle ++
  optAttr "imeMode" dv.imeMode ++
  optAttr "operator" dv.operator ++
  optAttr "allowBlank" (dv.allowBlank.map (fun b => toString (boolToInt b))) ++
  (if dv.showDropDown = some false then [("showDropDown", "1")] else []) ++
  optAttr "showInputMessage" (dv.showInputMessage.map (fun b => toString (boolToInt b))) ++
  optAttr "showErrorMessage" (dv.showErrorMessage.map (fun b => toString (boolToInt b))) ++
  optAttr "errorTitle" dv.errorTitle ++
  optAttr "error" dv.error ++
  optAttr "promptTitle" dv.promptTitle ++
  optAttr "prompt" dv.prompt ++
  [("sqref", jsValToString dv.sqref)]

/-! ## Worksheet model and serialization pipeline (src/unnamed/part_000) -/

/-- A parsed `A1`-style cell reference.  The source keeps these as strings and
sorts them with `utils.sortCellRefs`; the utils module is not under src, so —
modelled from the spec — the comparator orders references by column then
row. -/
structure CellRef where
  col : Nat
  row : Nat
deriving DecidableEq, Repr

/-- The column-then-row order on cell references (modelled from the spec's
cell-reference comparator). -/
def cellRefLe (a b : CellRef) : Bool :=
  Nat.blt a.col b.col || (a.col == b.col && Nat.ble a.row b.row)

/-- Ordered insertion used by `sortCellRefs`. -/
def insertRef (x : CellRef) : List CellRef → List CellRef
  | [] => [x]
  | y :: ys => if cellRefLe x y then x :: y :: ys else y :: insertRef x ys

/-- Sorting of a row's cell references by column then row
(`thisRow.cellRefs.sort(utils.sortCellRefs)`). -/
def sortCellRefs (l : List CellRef) : List CellRef := l.foldr insertRef []

/-- A worksheet `Row` as read by the serializer: the attribute fields used in
`_addSheetData` (null modelled as `none`), the cell references, and the
first/last populated column of the row (`firstColumn` / `lastColumn`, which
the worksheet maintains as cells are added; that maintenance code is outside
src and the fields are read verbatim by `_addAutoFilter`). -/
structure Row where
  r : Nat
  spans : String
  s : Option Nat := none
  customFormat : Option Bool := none
  ht : Option Int := none
  hidden : Option Bool := none
  customHeight : Option Bool := none
  outlineLevel : Option Nat := none
  collapsed : Option Bool := none
  thickTop : Option Bool := none
  thickBot : Option Bool := none
  cellRefs : List CellRef := []
  firstColumn : Nat := 0
  lastColumn : Nat := 0
deriving DecidableEq, Repr

/-- The row attributes emitted by `_addSheetData` (part_000 lines 179–204), in
source order.  `dh` is whether `opts.sheetFormat.defaultRowHeight` is a
number, which forces the `customHeight` attribute. -/
def rowAttrs (dh : Bool) (row : Row) : List (String × String) :=
  [("r", toString row.r), ("spans", row.spans)] ++
  optAttr "s" (row.s.map toString) ++
  optAttr "customFormat" (row.customFormat.map (fun b => jsValToString (.jb b))) ++
  optAttr "ht" (row.ht.map toString) ++
  optAttr "hidden" (row.hidden.map (fun b => jsValToString (.jb b))) ++
  (if row.customHeight = some true || dh then [("customHeight", "1")] else []) ++
  optAttr "outlineLevel" (row.outlineLevel.map toString) ++
  optAttr "collapsed" (row.collapsed.map (fun b => jsValToString (.jb b))) ++
  optAttr "thickTop" (row.thickTop.map (fun b => jsValToString (.jb b))) ++
  optAttr "thickBot" (row.thickBot.map (fun b => jsValToString (.jb b)))

/-- One emitted `row` element: its attributes and its cells in emission order.
Each cell's own serialization is delegated to the cell (external collaborator),
so a cell is identified here by its reference. -/
structure RowXml where
  attrs : List (String × String)
  cells : List CellRef
deriving DecidableEq, Repr

/-- Emission of one row by `processRows`: sort the row's cell references by
column, emit the row attributes, then the cells in sorted order. -/
def emitRow (dh : Bool) (row : Row) : RowXml :=
  { attrs := rowAttrs dh row, cells := sortCellRefs row.cellRefs }

/-- The chunked row traversal of `_addSheetData` (part_000 lines 168–227):
`processNextRows` splices the next `c` rows off the work list (the source uses
`c = 500`); an empty splice ends the traversal, otherwise the chunk is
processed and the traversal continues. -/
def processChunksAux (dh : Bool) (c : Nat) : Nat → List Row → List RowXml
  | 0, _ => []
  | fuel + 1, rows =>
    if rows.take c = [] then []
    else (rows.take c).map (emitRow dh) ++ processChunksAux dh c fuel (rows.drop c)

/-- The full chunked traversal; fuel `rows.length` always suffices because a
non-empty splice removes at least one row. -/
def processChunks (dh : Bool) (c : Nat) (rows : List Row) : List RowXml :=
  processChunksAux dh c rows.length rows

/-- The unchunked linear traversal of the same rows. -/
def processLinear (dh : Bool) (rows : List Row) : List RowXml :=
  rows.map (emitRow dh)

/-- The worksheet's `opts.autoFilter` object.  The source tests each bound
with `typeof x === 'number'`, so a non-number value behaves as unset
(`none`). -/
structure AutoFilterOpts where
  startRow : Option Nat := none
  startCol : Option Nat := none
  endRow : Option Nat := none
  endCol : Option Nat := none
deriving DecidableEq, Repr

/-- The worksheet's `opts.sheetProtection` object.  The source iterates all of
its keys; beyond the three defaulted fields (`sheet`, `objects`, `scenarios`)
we model one representative extra flag (`formatCells`) and the password (whose
hashing is an external collaborator and not emitted here). -/
structure SheetProtectionOpts where
  sheet : Option Bool := none
  objects : Option Bool := none
  scenarios : Option Bool := none
  formatCells : Option Bool := none
  password : Option String := none
deriving DecidableEq, Repr

/-- A workbook defined name, as passed to
`definedNameCollection.addDefinedName` by `_addAutoFilter` (part_000 lines
298–317). -/
structure DefinedName where
  hidden : Nat
  localSheetId : Nat
  name : String
  refFormula : String
deriving DecidableEq, Repr

/-- The slice of a worksheet read and written by the embedded pipeline stages.
`rows` is the sparse row map keyed by row number (absent numbers have no
entry); `dh` abbreviates whether `opts.sheetFormat.defaultRowHeight` is a
number. -/
structure Worksheet where
  name : String
  localSheetId : Nat
  rows : List (Nat × Row)
  autoFilter : AutoFilterOpts := {}
  sheetProtection : SheetProtectionOpts := {}
  dh : Bool := false
  lastUsedRow : Nat := 0
  lastUsedCol : Nat := 0
deriving DecidableEq, Repr

/-- Lookup of `ws.rows[n]` in the sparse row map. -/
def lookupRow : List (Nat × Row) → Nat → Option Row
  | [], _ => none
  | p :: l, n => if p.1 = n then some p.2 else lookupRow l n

/-- The largest populated row number (0 when there are no rows). -/
def rowKeysMax (rows : List (Nat × Row)) : Nat :=
  rows.foldr (fun p m => max p.1 m) 0

/-- The `while (firstEmptyRow === undefined)` scan of `_addAutoFilter`
(part_000 lines 275–283), written with explicit fuel: starting at `cur`, walk
forward while the row number is populated and return the first one that is
not.  `firstEmptyRowFrom` supplies fuel that provably suffices, so the fuel-0
case is unreachable. -/
def scanFirstEmpty (rows : List (Nat × Row)) : Nat → Nat → Nat
  | 0, cur => cur
  | fuel + 1, cur =>
    if lookupRow rows cur = none then cur else scanFirstEmpty rows fuel (cur + 1)

/-- The first row number `≥ s` with no Row entry.  The scan is bounded: every
populated row number is at most `rowKeysMax rows`, so `rowKeysMax rows + 2`
steps always reach an empty row number. -/
def firstEmptyRowFrom (rows : List (Nat × Row)) (s : Nat) : Nat :=
  scanFirstEmpty rows (rowKeysMax rows + 2) s

/-- Modelled from the spec: `utils.getExcelAlpha` column-letter conversion
(1 ↦ A, …, 26 ↦ Z, 27 ↦ AA; the utils module is not under src).  Written with
fuel `n` itself, which suffices since the quotient shrinks every step. -/
def getExcelAlphaAux : Nat → Nat → String
  | 0, _ => ""
  | _ + 1, 0 => ""
  | fuel + 1, n =>
    getExcelAlphaAux fuel ((n - 1) / 26) ++ String.singleton (Char.ofNat (65 + (n - 1) % 26))

/-- Excel column letters for a 1-based column number. -/
def getExcelAlpha (n : Nat) : String := getExcelAlphaAux n n

/-- The emitted `autoFilter` element (its `ref` attribute). -/
structure AutoFilterXml where
  refAttr : String
deriving DecidableEq, Repr

/-- `_addAutoFilter` (part_000 lines 262–322).  If `startRow` is set: missing
column bounds are normalized (lines 271–272), a missing `endRow` is resolved
by the forward scan to one less than the first empty row number (lines
274–286), and if either column bound is missing both are taken from the filter
row's first/last populated column (lines 289–292) — reading `filterRow` there
crashes with a TypeError when no row exists at `startRow`.  The resolved
bounds are written back into `ws.opts.autoFilter`, the element's `ref` range
is emitted, and a hidden `_xlnm._FilterDatabase` defined name scoped to the
worksheet is appended to the workbook's collection. -/
def addAutoFilter (ws : Worksheet) (names : List DefinedName) :
    Except String (Option AutoFilterXml × Worksheet × List DefinedName) :=
  match ws.autoFilter.startRow with
  | none => .ok (none, ws, names)
  | some startRow =>
    let filterRow := lookupRow ws.rows startRow
    let startCol0 := ws.autoFilter.startCol
    let endCol0 := ws.autoFilter.endCol
    let endRow :=
      match ws.autoFilter.endRow with
      | some e => e
      | none => firstEmptyRowFrom ws.rows startRow - 1
    let emit := fun (sc ec : Nat) =>
      let refAttr := getExcelAlpha sc ++ toString startRow ++ ":" ++ getExcelAlpha ec ++ toString endRow
      let dn : DefinedName :=
        { hidden := 1, localSheetId := ws.localSheetId, name := "_xlnm._FilterDatabase",
          refFormula := "\'" ++ ws.name ++ "\'!$" ++ getExcelAlpha sc ++ "$" ++ toString startRow ++
            ":$" ++ getExcelAlpha ec ++ "$" ++ toString endRow }
      let ws' := { ws with autoFilter :=
        { startRow := some startRow, startCol := some sc, endCol := some ec, endRow := some endRow } }
      Except.ok (some { refAttr := refAttr }, ws', names ++ [dn])
    match startCol0, endCol0 with
    | some sc, some ec => emit sc ec
    | _, _ =>
      match filterRow with
      | none => .error "TypeError: Cannot read properties of undefined (reading firstColumn)"
      | some fr => emit fr.firstColumn fr.lastColumn

/-- `_addSheetProtection` (part_000 lines 229–259): if any protection field is
set, the `sheet`, `objects` and `scenarios` fields are defaulted to `true` in
place and the element is emitted (attribute rendering, including password
hashing, is delegated to external collaborators and not modelled); otherwise
nothing happens. -/
def addSheetProtection (ws : Worksheet) : Option SheetProtectionOpts × Worksheet :=
  let o := ws.sheetProtection
  let includeProtection :=
    o.sheet.isSome || o.objects.isSome || o.scenarios.isSome ||
    o.formatCells.isSome || o.password.isSome
  if includeProtection then
    let o' := { o with
      sheet := some (o.sheet.getD true),
      objects := some (o.objects.getD true),
      scenarios := some (o.scenarios.getD true) }
    (some o', { ws with sheetProtection := o' })
  else
    (none, ws)

/-- `_addSheetData` (part_000 lines 168–227): sorts each row's `cellRefs` in
place (visible in the worksheet afterwards) and emits the rows in chunks of
500 in key order. -/
def sheetDataStage (ws : Worksheet) : List RowXml × Worksheet :=
  let rows' := ws.rows.map (fun p => (p.1, { p.2 with cellRefs := sortCellRefs p.2.cellRefs }))
  (processChunks ws.dh 500 (ws.rows.map (fun p => p.2)), { ws with rows := rows' })

/-- The outputs of the state-touching pipeline stages. -/
structure PipelineOut where
  rowsXml : List RowXml
  protection : Option SheetProtectionOpts
  filter : Option AutoFilterXml
deriving DecidableEq, Repr

/-- The `sheetXML` pipeline (part_000 lines 582–598) restricted to the three
stages that read *and write* state — sheet data, sheet protection, auto filter
— composed in source order and threading the worksheet plus the workbook's
defined-name collection.  The remaining stages only read the worksheet and
append XML. -/
def sheetXMLModel (ws : Worksheet) (names : List DefinedName) :
    Except String (PipelineOut × Worksheet × List DefinedName) :=
  let d := sheetDataStage ws
  let p := addSheetProtection d.2
  andThenE (addAutoFilter p.2 names) fun r =>
  .ok ({ rowsXml := d.1, protection := p.1, filter := r.1 }, r.2.1, r.2.2)

/-! ## Workbook registries (src/unnamed/part_000, class Workbook) -/

/-- JS `Array.prototype.indexOf` on a string array: the index of the first
occurrence, or −1. -/
def jsIndexOf (v : String) : List String → Int
  | [] => -1
  | a :: l => if a = v then 0 else (if jsIndexOf v l < 0 then -1 else jsIndexOf v l + 1)

/-- `Workbook.getStringIndex` (part_000 lines 948–953): push the string if it
is not present, then return its index.  Returns the index and the updated
shared-string table. -/
def getStringIndex (ss : List String) (v : String) : Int × List String :=
  let ss' := if jsIndexOf v ss < 0 then ss ++ [v] else ss
  (jsIndexOf v ss', ss')

/-- Modelled from the spec: the canonical structural content of a `Style`
(the Style class and its `toObject` are not under src).  The source keys the
lookup by `JSON.stringify(thisStyle.toObject())`, a deterministic canonical
serialization with a fixed field order, so structurally equal styles — even
ones built from options bags with differently ordered fields — get the same
key; we therefore key the lookup by the structural value itself. -/
structure StyleObj where
  fontName : Option String := none
  fontSize : Option Nat := none
  fontColor : Option String := none
  fillColor : Option String := none
  numberFormat : Option String := none
deriving DecidableEq, Repr

/-- A registered `Style`: its structural content plus `ids.cellXfs`, the index
assigned at registration. -/
structure Style where
  obj : StyleObj
  cellXfs : Nat
deriving DecidableEq, Repr

/-- The workbook's style registry: `this.styles` and the `stylesLookup`
key-to-style map. -/
structure StyleRegistry where
  styles : List Style
  stylesLookup : List (StyleObj × Style)
deriving DecidableEq, Repr

/-- Lookup in `stylesLookup` by canonical key. -/
def lookupStyle : List (StyleObj × Style) → StyleObj → Option Style
  | [], _ => none
  | p :: l, k => if p.1 = k then some p.2 else lookupStyle l k

/-- `Workbook.createStyle` (part_000 lines 927–940): return the existing style
when the canonical key is already registered; otherwise record the key, append
the style, and assign it the new index `styles.length − 1` (the index of the
pushed entry). -/
def createStyle (reg : StyleRegistry) (obj : StyleObj) : Style × StyleRegistry :=
  match lookupStyle reg.stylesLookup obj with
  | some st => (st, reg)
  | none =>
    let st : Style := { obj := obj, cellXfs := reg.styles.length }
    (st, { styles := reg.styles ++ [st], stylesLookup := reg.stylesLookup ++ [(obj, st)] })

/-! ## Acceptance predicates for the DataValidation constructor

These follow the (amended) spec words and are compared against `dvConstruct`,
which is the embedding of the source. -/

/-- Whether a boolean-coercible option value passes the constructor's boolean
block: it must be a boolean after the two `Number()` coercion statements. -/
def boolFieldOk : Option JsVal → Bool
  | none => true
  | some v => match coerceBoolVal v with | .jb _ => true | _ => false

/-- Whether an enumerated option value passes: absent, or a string in the
closed set. -/
def enumFieldOk (enums : List String) : Option JsVal → Bool
  | none => true
  | some (.js s) => decide (s ∈ enums)
  | some _ => false

/-- Whether a text option value passes: absent or a string. -/
def strFieldOk : Option JsVal → Bool
  | none => true
  | some (.js _) => true
  | some _ => false

/-- The boolean stored on `this` by a successful boolean block. -/
def normBool : Option JsVal → Option Bool
  | none => none
  | some v => match coerceBoolVal v with | .jb b => some b | _ => none

/-- The value written back into the caller's option field by a successful
boolean block. -/
def normBoolField (v? : Option JsVal) : Option JsVal :=
  (normBool v?).map JsVal.jb

/-- The string stored on `this` by a successful text block. -/
def normStr : Option JsVal → Option String
  | some (.js s) => some s
  | _ => none

/-- The string stored on `this` by a successful enumerated block. -/
def normEnum : Option JsVal → Option String
  | some (.js s) => some s
  | _ => none

/-- The amended acceptance condition of the `DataValidation` constructor
(spec-side definition, following the spec's words as corrected by the
counterexamples): `sqref` present; every enumerated field in its closed set;
every text field a string; `allowBlank` and `showDropDown` boolean-coercible;
`showErrorMessage` boolean-coercible unless `error` or `errorTitle` is present
(which overwrite it with `true` before it is validated), and likewise
`showInputMessage` unless `prompt` or `promptTitle` is present. -/
def dvAcceptSpec (o : DVOpts) : Bool :=
  o.sqref.isSome &&
  boolFieldOk o.allowBlank &&
  enumFieldOk errorStyleEnums o.errorStyle &&
  strFieldOk o.error &&
  strFieldOk o.errorTitle &&
  enumFieldOk imeModeEnums o.imeMode &&
  enumFieldOk operatorEnums o.operator &&
  strFieldOk o.prompt &&
  strFieldOk o.promptTitle &&
  boolFieldOk o.showDropDown &&
  (o.error.isSome || o.errorTitle.isSome || boolFieldOk o.showErrorMessage) &&
  (o.prompt.isSome || o.promptTitle.isSome || boolFieldOk o.showInputMessage) &&
  enumFieldOk typeEnums o.type

/-! ## Concrete instances used by witnesses and counterexamples -/

/-- A populated row `n` with cells in columns 3 and 1 (inserted out of order)
spanning columns 1–3. -/
def sampleRow (n : Nat) : Row :=
  { r := n, spans := "1:3", cellRefs := [⟨3, n⟩, ⟨1, n⟩], firstColumn := 1, lastColumn := 3 }

/-- Worksheet with rows 5, 6, 7 populated (row 8 absent) and an autofilter
starting at row 5 with no other bound set — the spec's end-row example. -/
def wsC1 : Worksheet :=
  { name := "Sheet1", localSheetId := 0,
    rows := [(5, sampleRow 5), (6, sampleRow 6), (7, sampleRow 7)],
    autoFilter := { startRow := some 5 } }

/-- 1,200 populated rows, for the batched-versus-linear equivalence. -/
def rowsC3 : List Row := (List.range 1200).map (fun n => sampleRow (n + 1))

/-- A worksheet holding the 1,200 rows. -/
def wsC3 : Worksheet := { name := "Big", localSheetId := 0, rows := rowsC3.map (fun r => (r.r, r)) }

/-- Options with `allowBlank: null` — `null` is none of true/false/1/0, yet
`Number(null) === 0`, so the constructor accepts it and normalizes it to
`false`. -/
def optsC4 : DVOpts := { sqref := some (.js "A1"), allowBlank := some .jnull }

/-- Options with `error` and `prompt` present and `showErrorMessage` /
`showInputMessage` explicitly `false`. -/
def optsC5 : DVOpts :=
  { sqref := some (.js "A1"), error := some (.js "Bad input"),
    showErrorMessage := some (.jb false), prompt := some (.js "Pick one"),
    showInputMessage := some (.jb false) }

/-- Options with `errorTitle` and `promptTitle` present and the two show
flags explicitly `false`. -/
def optsC10 : DVOpts :=
  { sqref := some (.js "B2"), errorTitle := some (.js "Oops"),
    showErrorMessage := some (.jb false), promptTitle := some (.js "Hint"),
    showInputMessage := some (.jb false) }

/-- A worksheet with **no populated rows** whose autofilter sets `startRow: 5`
and both column bounds: the unresolved-bounds failure case of C8. -/
def wsC8 : Worksheet :=
  { name := "Sheet1", localSheetId := 0, rows := [],
    autoFilter := { startRow := some 5, startCol := some 1, endCol := some 2 } }

/-- A worksheet exercising serialization-time mutation: row 1 has unsorted
cell references and the autofilter bounds are unresolved. -/
def wsC9 : Worksheet :=
  { name := "Sheet1", localSheetId := 0, rows := [(1, sampleRow 1)],
    autoFilter := { startRow := some 1 } }

/-- The pipeline output for `wsC9` (checked by evaluation in the witness). -/
def outC9 : PipelineOut :=
  { rowsXml := [{ attrs := [("r", "1"), ("spans", "1:3")],
                  cells := [⟨1, 1⟩, ⟨3, 1⟩] }],
    protection := none,
    filter := some { refAttr := "A1:C1" } }

/-- The worksheet state after serializing `wsC9`: cell references sorted and
autofilter bounds resolved in place. -/
def wsC9After : Worksheet :=
  { name := "Sheet1", localSheetId := 0,
    rows := [(1, { r := 1, spans := "1:3", cellRefs := [⟨1, 1⟩, ⟨3, 1⟩],
                   firstColumn := 1, lastColumn := 3 })],
    autoFilter := { startRow := some 1, startCol := some 1, endRow := some 1, endCol := some 3 } }

/-- The defined names registered while serializing `wsC9`. -/
def namesC9 : List DefinedName :=
  [{ hidden := 1, localSheetId := 0, name := "_xlnm._FilterDatabase",
     refFormula := "\'Sheet1\'!$A$1:$C$1" }]

/-- The rule constructed from `optsC5` (checked by evaluation in the
witness). -/
def dvC5 : DataValidation :=
  { sqref := .js "A1", error := some "Bad input", showErrorMessage := some true,
    prompt := some "Pick one", showInputMessage := some true }

/-- The caller's options object after constructing from `optsC5`: both show
flags have been overwritten with `true`. -/
def optsC5After : DVOpts :=
  { sqref := some (.js "A1"), error := some (.js "Bad input"),
    prompt := some (.js "Pick one"), showErrorMessage := some (.jb true),
    showInputMessage := some (.jb true) }

/-- The rule constructed from `optsC10`. -/
def dvC10 : DataValidation :=
  { sqref := .js "B2", errorTitle := some "Oops", showErrorMessage := some true,
    promptTitle := some "Hint", showInputMessage := some true }

/-- The caller's options object after constructing from `optsC10`. -/
def optsC10After : DVOpts :=
  { sqref := some (.js "B2"), errorTitle := some (.js "Oops"),
    promptTitle := some (.js "Hint"), showErrorMessage := some (.jb true),
    showInputMessage := some (.jb true) }

/-- An empty style registry. -/
def regC2 : StyleRegistry := { styles := [], stylesLookup := [] }

/-- Two structurally distinct style contents. -/
def objC2a : StyleObj := { fontName := some "Calibri", fontSize := some 12 }

/-- See `objC2a`. -/
def objC2b : StyleObj := { fontName := some "Arial", fontSize := some 10 }

/-! ## Helper lemmas: the end-row scan -/

theorem lookupRow_gt_max (rows : List (Nat × Row)) (n : Nat) (h : rowKeysMax rows < n) :
    lookupRow rows n = none := by
  induction rows with
  | nil => rfl
  | cons p l ih =>
    have hm : max p.1 (rowKeysMax l) < n := h
    have h1 : ¬ p.1 = n := by omega
    have h2 : rowKeysMax l < n := by omega
    simp only [lookupRow, if_neg h1]
    exact ih h2

theorem scanFirstEmpty_spec (rows : List (Nat × Row)) :
    ∀ fuel cur, (∃ k, k < fuel ∧ lookupRow rows (cur + k) = none) →
      lookupRow rows (scanFirstEmpty rows fuel cur) = none ∧
      cur ≤ scanFirstEmpty rows fuel cur ∧
      ∀ r, cur ≤ r → r < scanFirstEmpty rows fuel cur → lookupRow rows r ≠ none := by
  intro fuel
  induction fuel with
  | zero =>
    rintro cur ⟨k, hk, _⟩
    omega
  | succ fuel ih =>
    rintro cur ⟨k, hk, hnone⟩
    by_cases hcur : lookupRow rows cur = none
    · refine ⟨?_, ?_, ?_⟩ <;> simp only [scanFirstEmpty, if_pos hcur]
      · exact hcur
      · exact le_refl cur
      · intro r h1 h2
        omega
    · have hk0 : k ≠ 0 := by
        intro h0
        rw [h0, Nat.add_zero] at hnone
        exact hcur hnone
      obtain ⟨k', rfl⟩ : ∃ k', k = k' + 1 := ⟨k - 1, by omega⟩
      have hex : ∃ k2, k2 < fuel ∧ lookupRow rows (cur + 1 + k2) = none :=
        ⟨k', by omega, by rw [show cur + 1 + k' = cur + (k' + 1) by omega]; exact hnone⟩
      obtain ⟨ih1, ih2, ih3⟩ := ih (cur + 1) hex
      have hstep : scanFirstEmpty rows (fuel + 1) cur = scanFirstEmpty rows fuel (cur + 1) := by
        simp only [scanFirstEmpty, if_neg hcur]
      refine ⟨by rw [hstep]; exact ih1, by rw [hstep]; omega, ?_⟩
      intro r h1 h2
      rw [hstep] at h2
      by_cases hrc : r = cur
      · rw [hrc]
        exact hcur
      · exact ih3 r (by omega) h2

theorem firstEmptyRowFrom_spec (rows : List (Nat × Row)) (s : Nat) :
    lookupRow rows (firstEmptyRowFrom rows s) = none ∧
    s ≤ firstEmptyRowFrom rows s ∧
    ∀ r, s ≤ r → r < firstEmptyRowFrom rows s → lookupRow rows r ≠ none := by
  apply scanFirstEmpty_spec
  by_cases hs : rowKeysMax rows < s
  · exact ⟨0, by omega, by rw [Nat.add_zero]; exact lookupRow_gt_max rows s hs⟩
  · refine ⟨rowKeysMax rows + 1 - s, by omega, ?_⟩
    apply lookupRow_gt_max
    omega

/-! ## C1 and C8: autofilter resolution -/

/-- C1: for a worksheet whose autofilter sets only `startRow = s` and whose
row `s` is populated, the serializer resolves the filter end row to one less
than the first row number with no Row entry (every row from `s` to the end row
is populated and the next one is not), resolves the column bounds to the
filter row\'s first and last populated columns, emits the `ref` attribute as
the resulting rectangular range, and appends exactly one hidden
`_xlnm._FilterDatabase` defined name, scoped to the worksheet\'s local sheet
id, whose formula is the absolute range reference. -/
theorem autoFilter_resolves_bounds_and_registers_definedName
    (ws : Worksheet) (names : List DefinedName) (s : Nat) (fr : Row)
    (haf : ws.autoFilter = { startRow := some s })
    (hfr : lookupRow ws.rows s = some fr) :
    s ≤ firstEmptyRowFrom ws.rows s - 1 ∧
    lookupRow ws.rows ((firstEmptyRowFrom ws.rows s - 1) + 1) = none ∧
    (∀ r, s ≤ r → r ≤ firstEmptyRowFrom ws.rows s - 1 → lookupRow ws.rows r ≠ none) ∧
    addAutoFilter ws names = .ok
      (some { refAttr := getExcelAlpha fr.firstColumn ++ toString s ++ ":" ++
                getExcelAlpha fr.lastColumn ++ toString (firstEmptyRowFrom ws.rows s - 1) },
       { ws with autoFilter :=
           { startRow := some s, startCol := some fr.firstColumn,
             endRow := some (firstEmptyRowFrom ws.rows s - 1), endCol := some fr.lastColumn } },
       names ++ [{ hidden := 1, localSheetId := ws.localSheetId,
                   name := "_xlnm._FilterDatabase",
                   refFormula := "\'" ++ ws.name ++ "\'!$" ++ getExcelAlpha fr.firstColumn ++
                     "$" ++ toString s ++ ":$" ++ getExcelAlpha fr.lastColumn ++ "$" ++
                     toString (firstEmptyRowFrom ws.rows s - 1) }]) := by
  obtain ⟨h1, h2, h3⟩ := firstEmptyRowFrom_spec ws.rows s
  have hlt : s < firstEmptyRowFrom ws.rows s := by
    rcases Nat.lt_or_ge s (firstEmptyRowFrom ws.rows s) with h | h
    · exact h
    · exfalso
      have he : firstEmptyRowFrom ws.rows s = s := by omega
      rw [he] at h1
      rw [h1] at hfr
      cases hfr
  refine ⟨by omega, ?_, ?_, ?_⟩
  · rw [show firstEmptyRowFrom ws.rows s - 1 + 1 = firstEmptyRowFrom ws.rows s by omega]
    exact h1
  · intro r hr1 hr2
    exact h3 r hr1 (by omega)
  · simp [addAutoFilter, haf, hfr]

/-- C1 witness: rows 5, 6 and 7 populated, row 8 absent, `startRow = 5`: the
resolved end row is 7, the emitted range is `A5:C7`, and the defined name
`\'Sheet1\'!$A$5:$C$7` is appended. -/
theorem autoFilter_resolves_bounds_and_registers_definedName_witness :
    wsC1.autoFilter = { startRow := some 5 } ∧
    lookupRow wsC1.rows 5 = some (sampleRow 5) ∧
    5 ≤ firstEmptyRowFrom wsC1.rows 5 - 1 ∧
    lookupRow wsC1.rows ((firstEmptyRowFrom wsC1.rows 5 - 1) + 1) = none ∧
    firstEmptyRowFrom wsC1.rows 5 - 1 = 7 ∧
    addAutoFilter wsC1 [] = .ok
      (some { refAttr := "A5:C7" },
       { wsC1 with autoFilter :=
           { startRow := some 5, startCol := some 1, endRow := some 7, endCol := some 3 } },
       [{ hidden := 1, localSheetId := 0, name := "_xlnm._FilterDatabase",
          refFormula := "\'Sheet1\'!$A$5:$C$7" }]) := by
  have h := autoFilter_resolves_bounds_and_registers_definedName wsC1 [] 5 (sampleRow 5) rfl rfl
  exact ⟨rfl, rfl, h.1, h.2.1, by decide, by decide⟩

/-- C8: with `startRow = 5`, both column bounds set, and **no populated rows at
all**, the autofilter stage does not fail: it resolves the end row to 4 (one
less than the immediately-empty start row) and silently emits the inverted
range `A5:B4` plus the corresponding defined name.  This contradicts the
spec\'s requirement to treat unresolved bounds as a fatal error rather than
silently emitting malformed XML.  (The forward scan itself is bounded — it
stops at the first absent row number, here immediately — so it never loops.) -/
theorem autoFilter_unresolved_bounds_silently_emitted :
    wsC8.rows = [] ∧
    addAutoFilter wsC8 [] = .ok
      (some { refAttr := "A5:B4" },
       { wsC8 with autoFilter :=
           { startRow := some 5, startCol := some 1, endRow := some 4, endCol := some 2 } },
       [{ hidden := 1, localSheetId := 0, name := "_xlnm._FilterDatabase",
          refFormula := "\'Sheet1\'!$A$5:$B$4" }]) := by
  exact ⟨rfl, by decide⟩


/-! ## C3: batched row processing -/

theorem processChunksAux_eq (dh : Bool) (c : Nat) (hc : 0 < c) :
    ∀ fuel rows, rows.length ≤ fuel → processChunksAux dh c fuel rows = processLinear dh rows := by
  intro fuel
  induction fuel with
  | zero =>
    intro rows h
    have hr : rows = [] := by
      cases rows with
      | nil => rfl
      | cons a l => simp at h
    subst hr
    rfl
  | succ fuel ih =>
    intro rows h
    cases rows with
    | nil => simp [processChunksAux, processLinear]
    | cons a l =>
      have htake : ¬ (a :: l).take c = [] := by
        cases c with
        | zero => omega
        | succ c2 => simp
      have hdrop : ((a :: l).drop c).length ≤ fuel := by
        simp only [List.length_drop, List.length_cons]
        simp only [List.length_cons] at h
        omega
      simp only [processChunksAux, if_neg htake]
      rw [ih ((a :: l).drop c) hdrop]
      unfold processLinear
      rw [← List.map_append, List.take_append_drop]

theorem processChunks_eq (dh : Bool) (c : Nat) (hc : 0 < c) (rows : List Row) :
    processChunks dh c rows = processLinear dh rows :=
  processChunksAux_eq dh c hc rows.length rows le_rfl

/-- C3: for every positive chunk size — in particular the source's 500 — the
chunked traversal of the sheet-data stage emits exactly the row sequence of a
single unchunked linear traversal, and the sheet-data stage's output is that
linear sequence. -/
theorem sheetData_batched_equals_linear (dh : Bool) (c : Nat) (rows : List Row)
    (ws : Worksheet) (hc : 0 < c) :
    processChunks dh c rows = processLinear dh rows ∧
    (sheetDataStage ws).1 = processLinear ws.dh (ws.rows.map (fun p => p.2)) := by
  refine ⟨processChunks_eq dh c hc rows, ?_⟩
  simp only [sheetDataStage]
  exact processChunks_eq ws.dh 500 (by omega) (ws.rows.map (fun p => p.2))

set_option maxRecDepth 4000 in
/-- C3 witness: over 1,200 rows, batch size 500 produces the same emitted row
sequence as the linear traversal. -/
theorem sheetData_batched_equals_linear_witness :
    0 < 500 ∧ processChunks false 500 rowsC3 = processLinear false rowsC3 :=
  ⟨by decide, (sheetData_batched_equals_linear false 500 rowsC3 wsC3 (by decide)).1⟩

/-! ## C2: interning registries -/

theorem jsIndexOf_cons (v a : String) (l : List String) :
    jsIndexOf v (a :: l) =
      if a = v then 0 else if jsIndexOf v l < 0 then -1 else jsIndexOf v l + 1 := rfl

theorem jsIndexOf_neg_iff (v : String) (l : List String) : jsIndexOf v l < 0 ↔ v ∉ l := by
  induction l with
  | nil => simp [jsIndexOf]
  | cons a l ih =>
    rw [jsIndexOf_cons]
    by_cases h : a = v
    · subst h
      simp
    · rw [if_neg h, List.mem_cons]
      by_cases h2 : jsIndexOf v l < 0
      · rw [if_pos h2]
        have hnm := ih.mp h2
        constructor
        · intro _ hc
          rcases hc with hc | hc
          · exact h hc.symm
          · exact hnm hc
        · intro _
          omega
      · rw [if_neg h2]
        have hv : v ∈ l := by
          by_contra hnm
          exact h2 (ih.mpr hnm)
        constructor
        · intro hlt
          omega
        · intro hc
          exact absurd (Or.inr hv) hc

theorem jsIndexOf_append_not_mem (v : String) (l : List String) (h : v ∉ l) :
    jsIndexOf v (l ++ [v]) = (l.length : Int) := by
  induction l with
  | nil => simp [jsIndexOf]
  | cons a l ih =>
    have ha : ¬ a = v := by
      intro he
      exact h (he ▸ List.mem_cons_self a l)
    have hl : v ∉ l := fun hm => h (List.mem_cons_of_mem a hm)
    have hrec := ih hl
    have hstep : jsIndexOf v ((a :: l) ++ [v]) = jsIndexOf v (a :: (l ++ [v])) := rfl
    rw [hstep, jsIndexOf_cons, if_neg ha, hrec,
      if_neg (show ¬ (l.length : Int) < 0 by omega), List.length_cons]
    push_cast
    ring

theorem jsIndexOf_bounds (v : String) (l : List String) (h : v ∈ l) :
    0 ≤ jsIndexOf v l ∧ jsIndexOf v l < (l.length : Int) := by
  induction l with
  | nil => cases h
  | cons a l ih =>
    rw [jsIndexOf_cons]
    by_cases ha : a = v
    · rw [if_pos ha]
      refine ⟨le_refl 0, ?_⟩
      rw [List.length_cons]
      push_cast
      omega
    · have hv : v ∈ l := by
        rcases List.mem_cons.mp h with h1 | h1
        · exact absurd h1.symm ha
        · exact h1
      obtain ⟨ih1, ih2⟩ := ih hv
      rw [if_neg ha, if_neg (show ¬ jsIndexOf v l < 0 by omega), List.length_cons]
      push_cast
      omega

theorem getStringIndex_mem (ss : List String) (v : String) (h : v ∈ ss) :
    getStringIndex ss v = (jsIndexOf v ss, ss) := by
  have hneg : ¬ jsIndexOf v ss < 0 := by
    rw [jsIndexOf_neg_iff]
    simpa using h
  simp [getStringIndex, hneg]

theorem getStringIndex_not_mem (ss : List String) (v : String) (h : v ∉ ss) :
    getStringIndex ss v = ((ss.length : Int), ss ++ [v]) := by
  have hneg : jsIndexOf v ss < 0 := (jsIndexOf_neg_iff v ss).mpr h
  simp [getStringIndex, hneg, jsIndexOf_append_not_mem v ss h]

theorem mem_getStringIndex_snd (ss : List String) (v : String) : v ∈ (getStringIndex ss v).2 := by
  by_cases h : v ∈ ss
  · rw [getStringIndex_mem ss v h]
    exact h
  · rw [getStringIndex_not_mem ss v h]
    simp

theorem lookupStyle_append_self (l : List (StyleObj × Style)) (k : StyleObj) (st : Style)
    (h : lookupStyle l k = none) : lookupStyle (l ++ [(k, st)]) k = some st := by
  induction l with
  | nil => simp [lookupStyle]
  | cons a l ih =>
    by_cases ha : a.1 = k
    · simp only [lookupStyle, if_pos ha] at h
      cases h
    · simp only [lookupStyle, if_neg ha] at h
      simp only [List.cons_append, lookupStyle, if_neg ha]
      exact ih h

/-- C2: interning is idempotent and append-only.  Registering the same style
content twice returns the same registered style and leaves the registry
untouched; the style table only grows; a structurally new content is appended
with index `styles.length`, larger than every existing index.  Interning an
already-present shared string returns the same index and table; the table only
grows; a string not yet present is appended at index `length`, strictly larger
than the (non-negative, in-bounds) index of any interned string.  Indices are
never reused or compacted: both tables are extended purely by appending. -/
theorem interning_idempotent_append_only (reg : StyleRegistry) (o o2 : StyleObj)
    (ss : List String) (v v2 : String) :
    (createStyle (createStyle reg o).2 o = createStyle reg o) ∧
    (∃ t, (createStyle reg o).2.styles = reg.styles ++ t) ∧
    (lookupStyle reg.stylesLookup o2 = none →
       (createStyle reg o2).1.cellXfs = reg.styles.length ∧
       (createStyle reg o2).2.styles = reg.styles ++ [(createStyle reg o2).1]) ∧
    (getStringIndex (getStringIndex ss v).2 v = getStringIndex ss v) ∧
    (∃ t, (getStringIndex ss v).2 = ss ++ t) ∧
    (v2 ∉ (getStringIndex ss v).2 →
       getStringIndex (getStringIndex ss v).2 v2 =
         (((getStringIndex ss v).2.length : Int), (getStringIndex ss v).2 ++ [v2]) ∧
       0 ≤ (getStringIndex ss v).1 ∧
       (getStringIndex ss v).1 < ((getStringIndex ss v).2.length : Int)) := by
  refine ⟨?_, ?_, ?_, ?_, ?_, ?_⟩
  · cases hl : lookupStyle reg.stylesLookup o with
    | some st => simp [createStyle, hl]
    | none =>
      have h2 := lookupStyle_append_self reg.stylesLookup o
        ({ obj := o, cellXfs := reg.styles.length } : Style) hl
      simp [createStyle, hl, h2]
  · cases hl : lookupStyle reg.stylesLookup o with
    | some st => exact ⟨[], by simp [createStyle, hl]⟩
    | none => exact ⟨[{ obj := o, cellXfs := reg.styles.length }], by simp [createStyle, hl]⟩
  · intro h
    simp [createStyle, h]
  · by_cases h : v ∈ ss
    · rw [getStringIndex_mem ss v h]
      exact getStringIndex_mem ss v h
    · rw [getStringIndex_not_mem ss v h]
      rw [getStringIndex_mem (ss ++ [v]) v (by simp)]
      rw [jsIndexOf_append_not_mem v ss h]
  · by_cases h : v ∈ ss
    · rw [getStringIndex_mem ss v h]
      exact ⟨[], by simp⟩
    · rw [getStringIndex_not_mem ss v h]
      exact ⟨[v], rfl⟩
  · intro hnm
    refine ⟨getStringIndex_not_mem _ v2 hnm, ?_⟩
    by_cases h : v ∈ ss
    · rw [getStringIndex_mem ss v h]
      exact jsIndexOf_bounds v ss h
    · rw [getStringIndex_not_mem ss v h]
      simp only [List.length_append, List.length_cons, List.length_nil]
      push_cast
      omega

/-- C2 witness: on the empty registry, re-registering a style content is a
no-op returning the same style; a fresh content gets index 0 = current length;
interning Hello twice keeps index and table; World is then appended. -/
theorem interning_idempotent_append_only_witness :
    lookupStyle regC2.stylesLookup objC2b = none ∧
    createStyle (createStyle regC2 objC2a).2 objC2a = createStyle regC2 objC2a ∧
    (createStyle regC2 objC2b).1.cellXfs = regC2.styles.length ∧
    "World" ∉ (getStringIndex ["Hello"] "Hello").2 ∧
    getStringIndex (getStringIndex ["Hello"] "Hello").2 "Hello" =
      getStringIndex ["Hello"] "Hello" ∧
    getStringIndex (getStringIndex ["Hello"] "Hello").2 "World" =
      (((getStringIndex ["Hello"] "Hello").2.length : Int),
        (getStringIndex ["Hello"] "Hello").2 ++ ["World"]) := by
  have h := interning_idempotent_append_only regC2 objC2a objC2b ["Hello"] "Hello" "World"
  exact ⟨rfl, h.1, (h.2.2.1 rfl).1, by decide, h.2.2.2.1, (h.2.2.2.2.2 (by decide)).1⟩

/-! ## C6 and C7: data-validation emission -/

/-- C6: formula text quoting in data-validation formula elements: a numeric
value is emitted bare (its decimal rendering), a string whose first character
is `=` is emitted bare, and every other string is wrapped in literal double
quotes. -/
theorem cleanFormula_quoting (n : Int) (s : String) :
    cleanFormula (.jn n) = some (toString n) ∧
    cleanFormula (.js s) = some (if s.take 1 = "=" then s else "\"" ++ s ++ "\"") :=
  ⟨rfl, rfl⟩

theorem filter_optAttr_ne (key n : String) (v : Option String) (h : ¬ n = key) :
    (optAttr n v).filter (fun p => p.1 == key) = [] := by
  cases v with
  | none => rfl
  | some s =>
    have hb : (n == key) = false := by
      rw [beq_eq_false_iff_ne]
      exact h
    simp [optAttr, List.filter, hb]

/-- C7: in the attribute list emitted for a data-validation rule, a
`showDropDown` attribute (with value 1) appears exactly when the rule's
`showDropDown` field is explicitly `false`; when the field is `true` or unset,
no such attribute is emitted. -/
theorem dv_showDropDown_attr_iff_explicit_false (dv : DataValidation) :
    (dvAttrs dv).filter (fun p => p.1 == "showDropDown") =
      (if dv.showDropDown = some false then [("showDropDown", "1")] else []) := by
  unfold dvAttrs
  rw [List.filter_append, List.filter_append, List.filter_append, List.filter_append,
    List.filter_append, List.filter_append, List.filter_append, List.filter_append,
    List.filter_append, List.filter_append, List.filter_append, List.filter_append]
  rw [filter_optAttr_ne _ "type" _ (by decide), filter_optAttr_ne _ "errorStyle" _ (by decide),
    filter_optAttr_ne _ "imeMode" _ (by decide), filter_optAttr_ne _ "operator" _ (by decide),
    filter_optAttr_ne _ "allowBlank" _ (by decide),
    filter_optAttr_ne _ "showInputMessage" _ (by decide),
    filter_optAttr_ne _ "showErrorMessage" _ (by decide),
    filter_optAttr_ne _ "errorTitle" _ (by decide), filter_optAttr_ne _ "error" _ (by decide),
    filter_optAttr_ne _ "promptTitle" _ (by decide), filter_optAttr_ne _ "prompt" _ (by decide)]
  rw [show [("sqref", jsValToString dv.sqref)] = optAttr "sqref" (some (jsValToString dv.sqref))
      from rfl,
    filter_optAttr_ne _ "sqref" _ (by decide)]
  by_cases h : dv.showDropDown = some false
  · rw [if_pos h]
    decide
  · rw [if_neg h]
    decide

/-! ## C9: serialization-time mutation of the worksheet -/

theorem insertRef_perm (x : CellRef) (l : List CellRef) : (insertRef x l).Perm (x :: l) := by
  induction l with
  | nil => exact List.Perm.refl _
  | cons y ys ih =>
    by_cases h : cellRefLe x y = true
    · simp [insertRef, h]
    · simp only [insertRef, if_neg h]
      exact List.Perm.trans (List.Perm.cons y ih) (List.Perm.swap x y ys)

theorem sortCellRefs_perm (l : List CellRef) : (sortCellRefs l).Perm l := by
  induction l with
  | nil => exact List.Perm.refl _
  | cons x xs ih =>
    have hstep : sortCellRefs (x :: xs) = insertRef x (sortCellRefs xs) := rfl
    rw [hstep]
    exact List.Perm.trans (insertRef_perm x (sortCellRefs xs)) (List.Perm.cons x ih)

theorem addSheetProtection_frame (ws : Worksheet) :
    (addSheetProtection ws).2.name = ws.name ∧
    (addSheetProtection ws).2.localSheetId = ws.localSheetId ∧
    (addSheetProtection ws).2.rows = ws.rows ∧
    (addSheetProtection ws).2.autoFilter = ws.autoFilter ∧
    (addSheetProtection ws).2.dh = ws.dh ∧
    (addSheetProtection ws).2.lastUsedRow = ws.lastUsedRow ∧
    (addSheetProtection ws).2.lastUsedCol = ws.lastUsedCol ∧
    (addSheetProtection ws).2.sheetProtection.formatCells = ws.sheetProtection.formatCells ∧
    (addSheetProtection ws).2.sheetProtection.password = ws.sheetProtection.password := by
  cases hb : (ws.sheetProtection.sheet.isSome || ws.sheetProtection.objects.isSome ||
      ws.sheetProtection.scenarios.isSome || ws.sheetProtection.formatCells.isSome ||
      ws.sheetProtection.password.isSome) with
  | true => simp [addSheetProtection, hb]
  | false => simp [addSheetProtection, hb]

theorem addAutoFilter_frame (ws : Worksheet) (names : List DefinedName)
    (r : Option AutoFilterXml × Worksheet × List DefinedName)
    (h : addAutoFilter ws names = .ok r) :
    r.2.1.name = ws.name ∧
    r.2.1.localSheetId = ws.localSheetId ∧
    r.2.1.rows = ws.rows ∧
    r.2.1.sheetProtection = ws.sheetProtection ∧
    r.2.1.dh = ws.dh ∧
    r.2.1.lastUsedRow = ws.lastUsedRow ∧
    r.2.1.lastUsedCol = ws.lastUsedCol ∧
    r.2.1.autoFilter.startRow = ws.autoFilter.startRow ∧
    (∃ t, r.2.2 = names ++ t) := by
  unfold addAutoFilter at h
  cases haf : ws.autoFilter.startRow with
  | none =>
    simp only [haf] at h
    injection h with h2
    subst h2
    exact ⟨rfl, rfl, rfl, rfl, rfl, rfl, rfl, haf, ⟨[], by simp⟩⟩
  | some s =>
    simp only [haf] at h
    cases hsc : ws.autoFilter.startCol with
    | some sc =>
      cases hec : ws.autoFilter.endCol with
      | some ec =>
        simp only [hsc, hec] at h
        injection h with h2
        subst h2
        exact ⟨rfl, rfl, rfl, rfl, rfl, rfl, rfl, rfl, ⟨_, rfl⟩⟩
      | none =>
        simp only [hsc, hec] at h
        cases hfr : lookupRow ws.rows s with
        | none =>
          rw [hfr] at h
          cases h
        | some fr =>
          rw [hfr] at h
          simp only [] at h
          injection h with h2
          subst h2
          exact ⟨rfl, rfl, rfl, rfl, rfl, rfl, rfl, rfl, ⟨_, rfl⟩⟩
    | none =>
      simp only [hsc] at h
      cases hfr : lookupRow ws.rows s with
      | none =>
        rw [hfr] at h
        cases h
      | some fr =>
        rw [hfr] at h
        simp only [] at h
        injection h with h2
        subst h2
        exact ⟨rfl, rfl, rfl, rfl, rfl, rfl, rfl, rfl, ⟨_, rfl⟩⟩

/-- C9 (amended): serialization is not mutation-free, but its writes are
exactly the documented ones.  On success the post-state agrees with the
pre-state on the worksheet identity fields; each row's `cellRefs` has been
sorted in place (a permutation of the original); `autoFilter.startRow` is
unchanged (only the resolved bounds may be written); the modelled
sheet-protection fields other than the three defaulted flags are unchanged;
and the only shared workbook state written is the defined-name table, which is
extended by appending. -/
theorem serialization_frame (ws : Worksheet) (names : List DefinedName)
    (out : PipelineOut) (ws' : Worksheet) (names' : List DefinedName)
    (h : sheetXMLModel ws names = .ok (out, ws', names')) :
    ws'.name = ws.name ∧
    ws'.localSheetId = ws.localSheetId ∧
    ws'.dh = ws.dh ∧
    ws'.lastUsedRow = ws.lastUsedRow ∧
    ws'.lastUsedCol = ws.lastUsedCol ∧
    ws'.rows = ws.rows.map (fun p => (p.1, { p.2 with cellRefs := sortCellRefs p.2.cellRefs })) ∧
    ws'.rows.map Prod.fst = ws.rows.map Prod.fst ∧
    (∀ p ∈ ws.rows, ∃ q ∈ ws'.rows, q.1 = p.1 ∧ q.2.cellRefs.Perm p.2.cellRefs) ∧
    ws'.autoFilter.startRow = ws.autoFilter.startRow ∧
    ws'.sheetProtection.formatCells = ws.sheetProtection.formatCells ∧
    ws'.sheetProtection.password = ws.sheetProtection.password ∧
    (∃ t, names' = names ++ t) := by
  unfold sheetXMLModel at h
  cases haf : addAutoFilter (addSheetProtection (sheetDataStage ws).2).2 names with
  | error e =>
    simp only [haf, andThenE] at h
    exact Except.noConfusion h
  | ok r =>
    simp only [haf, andThenE] at h
    injection h with h2
    obtain ⟨h3, h4⟩ := Prod.mk.inj h2
    obtain ⟨h5, h6⟩ := Prod.mk.inj h4
    subst h5
    subst h6
    have hA := addAutoFilter_frame (addSheetProtection (sheetDataStage ws).2).2 names r haf
    have hP := addSheetProtection_frame (sheetDataStage ws).2
    have hD2 : (sheetDataStage ws).2.rows =
        ws.rows.map (fun p => (p.1, { p.2 with cellRefs := sortCellRefs p.2.cellRefs })) := rfl
    have hrows : r.2.1.rows =
        ws.rows.map (fun p => (p.1, { p.2 with cellRefs := sortCellRefs p.2.cellRefs })) := by
      rw [hA.2.2.1, hP.2.2.1, hD2]
    refine ⟨(hA.1.trans hP.1).trans rfl,
      (hA.2.1.trans hP.2.1).trans rfl,
      (hA.2.2.2.2.1.trans hP.2.2.2.2.1).trans rfl,
      (hA.2.2.2.2.2.1.trans hP.2.2.2.2.2.1).trans rfl,
      (hA.2.2.2.2.2.2.1.trans hP.2.2.2.2.2.2.1).trans rfl,
      hrows, ?_, ?_,
      (hA.2.2.2.2.2.2.2.1.trans (congrArg AutoFilterOpts.startRow hP.2.2.2.1)).trans rfl,
      ((congrArg SheetProtectionOpts.formatCells hA.2.2.2.1).trans hP.2.2.2.2.2.2.2.1).trans rfl,
      ((congrArg SheetProtectionOpts.password hA.2.2.2.1).trans hP.2.2.2.2.2.2.2.2).trans rfl,
      hA.2.2.2.2.2.2.2.2⟩
    · rw [hrows]
      simp
    · intro p hp
      refine ⟨(p.1, { p.2 with cellRefs := sortCellRefs p.2.cellRefs }), ?_, rfl, ?_⟩
      · rw [hrows]
        exact List.mem_map_of_mem _ hp
      · exact sortCellRefs_perm p.2.cellRefs

/-- C9 counterexample: serialization does mutate the worksheet model.  On a
worksheet with unsorted cell references and unresolved autofilter bounds, the
pipeline returns a post-state whose autofilter end row has been written back
(`some 1` where the input had `none`) and whose row's cell references have
been reordered in place; the post-state differs from the input worksheet. -/
theorem serialization_mutates_worksheet_cex :
    sheetXMLModel wsC9 [] = .ok (outC9, wsC9After, namesC9) ∧
    wsC9.autoFilter.endRow = none ∧
    wsC9After.autoFilter.endRow = some 1 ∧
    (lookupRow wsC9.rows 1).map Row.cellRefs = some [⟨3, 1⟩, ⟨1, 1⟩] ∧
    (lookupRow wsC9After.rows 1).map Row.cellRefs = some [⟨1, 1⟩, ⟨3, 1⟩] ∧
    ¬ wsC9After = wsC9 := by
  decide

/-- C9 witness for the amended frame theorem, at the concrete worksheet of the
counterexample. -/
theorem serialization_frame_witness :
    sheetXMLModel wsC9 [] = .ok (outC9, wsC9After, namesC9) ∧
    wsC9After.name = wsC9.name ∧
    wsC9After.rows =
      wsC9.rows.map (fun p => (p.1, { p.2 with cellRefs := sortCellRefs p.2.cellRefs })) ∧
    wsC9After.autoFilter.startRow = wsC9.autoFilter.startRow := by
  have h := serialization_frame wsC9 [] outC9 wsC9After namesC9 (by decide)
  exact ⟨by decide, h.1, h.2.2.2.2.2.1, h.2.2.2.2.2.2.2.2.1⟩

/-! ## C4, C5, C10: the DataValidation constructor -/

theorem checkOptBool_eq (name : String) (v? : Option JsVal) :
    checkOptBool name v? =
      if boolFieldOk v? = true then .ok (normBool v?, normBoolField v?)
      else .error ("DataValidation " ++ name ++ " must be true, false, 1 or 0") := by
  cases v? with
  | none => rfl
  | some v =>
    cases hc : coerceBoolVal v with
    | jb b => simp [checkOptBool, boolFieldOk, normBool, normBoolField, hc]
    | jn n => simp [checkOptBool, boolFieldOk, normBool, normBoolField, hc]
    | js s => simp [checkOptBool, boolFieldOk, normBool, normBoolField, hc]
    | jnull => simp [checkOptBool, boolFieldOk, normBool, normBoolField, hc]

theorem checkOptEnum_eq (name : String) (enums : List String) (v? : Option JsVal) :
    checkOptEnum name enums v? =
      if enumFieldOk enums v? = true then .ok (normEnum v?)
      else .error ("DataValidation " ++ name ++ " must be one of " ++
        String.intercalate ", " enums) := by
  cases v? with
  | none => rfl
  | some v =>
    cases v with
    | js s =>
      by_cases hs : s ∈ enums
      · simp [checkOptEnum, enumFieldOk, normEnum, hs]
      · simp [checkOptEnum, enumFieldOk, normEnum, hs]
    | jb b => simp [checkOptEnum, enumFieldOk]
    | jn n => simp [checkOptEnum, enumFieldOk]
    | jnull => simp [checkOptEnum, enumFieldOk]

theorem checkOptStr_eq (name : String) (v? : Option JsVal) :
    checkOptStr name v? =
      if strFieldOk v? = true then .ok (normStr v?)
      else .error ("DataValidation " ++ name ++ " must be a string") := by
  cases v? with
  | none => rfl
  | some v => cases v <;> simp [checkOptStr, strFieldOk, normStr]

theorem isOkE_andThenE_ite {α β : Type} (c : Bool) (a : α) (e : String)
    (f : α → Except String β) :
    isOkE (andThenE (if c = true then .ok a else .error e) f) = (c && isOkE (f a)) := by
  cases c <;> simp [andThenE, isOkE]

theorem andThenE_ite_ok {α β : Type} (c : Bool) (a : α) (e : String)
    (f : α → Except String β) (r : β)
    (h : andThenE (if c = true then .ok a else .error e) f = .ok r) :
    c = true ∧ f a = .ok r := by
  cases c
  · simp [andThenE] at h
  · exact ⟨rfl, by simpa [andThenE] using h⟩

theorem boolFieldOk_jbtrue : boolFieldOk (some (.jb true)) = true := rfl

theorem isOkE_ok {α : Type} (a : α) : isOkE (Except.ok a) = true := rfl

theorem normBool_jbtrue : normBool (some (.jb true)) = some true := rfl

theorem normBoolField_jbtrue : normBoolField (some (.jb true)) = some (.jb true) := rfl

theorem dvConstruct_isOk (o : DVOpts) : isOkE (dvConstruct o) = dvAcceptSpec o := by
  unfold dvConstruct dvAcceptSpec
  cases hsq : o.sqref with
  | none => simp [isOkE, hsq]
  | some v =>
    simp only [hsq, Option.isSome_some, Bool.true_and, checkOptBool_eq, checkOptEnum_eq,
      checkOptStr_eq, isOkE_andThenE_ite, isOkE_ok, Bool.and_true]
    rcases Bool.eq_false_or_eq_true o.error.isSome with he | he <;>
      rcases Bool.eq_false_or_eq_true o.errorTitle.isSome with het | het <;>
      rcases Bool.eq_false_or_eq_true o.prompt.isSome with hp | hp <;>
      rcases Bool.eq_false_or_eq_true o.promptTitle.isSome with hpt | hpt <;>
      simp [he, het, hp, hpt, boolFieldOk_jbtrue, Bool.and_assoc]

theorem dvConstruct_ok_fields (o : DVOpts) (dv : DataValidation) (o' : DVOpts)
    (h : dvConstruct o = .ok (dv, o')) :
    ((o.error.isSome = true ∨ o.errorTitle.isSome = true) →
       dv.showErrorMessage = some true ∧ o'.showErrorMessage = some (.jb true)) ∧
    ((o.prompt.isSome = true ∨ o.promptTitle.isSome = true) →
       dv.showInputMessage = some true ∧ o'.showInputMessage = some (.jb true)) := by
  unfold dvConstruct at h
  cases hsq : o.sqref with
  | none =>
    rw [hsq] at h
    exact Except.noConfusion h
  | some v =>
    simp only [hsq, checkOptBool_eq, checkOptEnum_eq, checkOptStr_eq] at h
    obtain ⟨_, h⟩ := andThenE_ite_ok _ _ _ _ _ h
    obtain ⟨_, h⟩ := andThenE_ite_ok _ _ _ _ _ h
    obtain ⟨_, h⟩ := andThenE_ite_ok _ _ _ _ _ h
    obtain ⟨_, h⟩ := andThenE_ite_ok _ _ _ _ _ h
    obtain ⟨_, h⟩ := andThenE_ite_ok _ _ _ _ _ h
    obtain ⟨_, h⟩ := andThenE_ite_ok _ _ _ _ _ h
    obtain ⟨_, h⟩ := andThenE_ite_ok _ _ _ _ _ h
    obtain ⟨_, h⟩ := andThenE_ite_ok _ _ _ _ _ h
    obtain ⟨_, h⟩ := andThenE_ite_ok _ _ _ _ _ h
    obtain ⟨_, h⟩ := andThenE_ite_ok _ _ _ _ _ h
    obtain ⟨_, h⟩ := andThenE_ite_ok _ _ _ _ _ h
    obtain ⟨_, h⟩ := andThenE_ite_ok _ _ _ _ _ h
    injection h with h2
    obtain ⟨hdv, ho'⟩ := Prod.mk.inj h2
    subst hdv
    subst ho'
    constructor
    · rintro (he | het)
      · rcases Bool.eq_false_or_eq_true o.errorTitle.isSome with het | het <;>
          simp [he, het, normBool_jbtrue, normBoolField_jbtrue]
      · simp [het, normBool_jbtrue, normBoolField_jbtrue]
    · rintro (hp | hpt)
      · rcases Bool.eq_false_or_eq_true o.promptTitle.isSome with hpt | hpt <;>
          simp [hp, hpt, normBool_jbtrue, normBoolField_jbtrue]
      · simp [hpt, normBool_jbtrue, normBoolField_jbtrue]

/-- C4 (amended): the constructor throws exactly when one of the following
holds: `sqref` is absent; an enumerated field (`errorStyle`, `imeMode`,
`operator`, `type`) holds a value outside its closed set; a text field
(`error`, `errorTitle`, `prompt`, `promptTitle`) is not a string; `allowBlank`
or `showDropDown` is present but not a boolean after the JS `Number()`
coercions (so exactly: not a boolean and not coercing to 1 or 0 — `null` and
the string `"1"` are accepted, unlike the original claim's closed list
true/false/1/0); or `showErrorMessage` (resp. `showInputMessage`) fails that
same boolean test while no `error`/`errorTitle` (resp. `prompt`/`promptTitle`)
is present — when one is present it overwrites the flag with `true` before the
flag is validated, so the flag's own value can never cause a throw. -/
theorem dvConstruct_throws_iff (o : DVOpts) :
    isOkE (dvConstruct o) = false ↔
      ¬ (o.sqref.isSome = true ∧
         boolFieldOk o.allowBlank = true ∧
         enumFieldOk errorStyleEnums o.errorStyle = true ∧
         strFieldOk o.error = true ∧
         strFieldOk o.errorTitle = true ∧
         enumFieldOk imeModeEnums o.imeMode = true ∧
         enumFieldOk operatorEnums o.operator = true ∧
         strFieldOk o.prompt = true ∧
         strFieldOk o.promptTitle = true ∧
         boolFieldOk o.showDropDown = true ∧
         (o.error.isSome = true ∨ o.errorTitle.isSome = true ∨
           boolFieldOk o.showErrorMessage = true) ∧
         (o.prompt.isSome = true ∨ o.promptTitle.isSome = true ∨
           boolFieldOk o.showInputMessage = true) ∧
         enumFieldOk typeEnums o.type = true) := by
  have hm := dvConstruct_isOk o
  constructor
  · intro hf hc
    rw [hm] at hf
    have hT : dvAcceptSpec o = true := by
      unfold dvAcceptSpec
      simp only [Bool.and_eq_true, Bool.or_eq_true]
      tauto
    rw [hT] at hf
    exact Bool.noConfusion hf
  · intro hn
    rcases Bool.eq_false_or_eq_true (isOkE (dvConstruct o)) with ht | hf
    swap
    · exact hf
    · exfalso
      apply hn
      rw [hm] at ht
      unfold dvAcceptSpec at ht
      simp only [Bool.and_eq_true, Bool.or_eq_true] at ht
      tauto

/-- C4 counterexample: the original claim says a boolean-coercible field
holding a value that is not `true`, `false`, `1` or `0` makes the constructor
throw.  But `allowBlank: null` — a value in none of those four — is accepted
(because `Number(null) === 0`) and normalized to `false`. -/
theorem dvConstruct_accepts_null_allowBlank :
    isOkE (dvConstruct optsC4) = true ∧
    optsC4.allowBlank = some JsVal.jnull ∧
    ¬ JsVal.jnull ∈ [JsVal.jb true, JsVal.jb false, JsVal.jn 1, JsVal.jn 0] ∧
    (dvConstruct optsC4).toOption.map (fun p => p.1.allowBlank) = some (some false) :=
  ⟨by decide, rfl, by decide, by decide⟩

/-- C5: whenever construction succeeds, a present `error` or `errorTitle`
forces the constructed rule's `showErrorMessage` to `true`, and a present
`prompt` or `promptTitle` forces `showInputMessage` to `true` — regardless of
any explicit value the caller supplied for those flags. -/
theorem dv_error_title_force_show_messages (o : DVOpts) (dv : DataValidation) (o' : DVOpts)
    (h : dvConstruct o = .ok (dv, o')) :
    ((o.error.isSome = true ∨ o.errorTitle.isSome = true) → dv.showErrorMessage = some true) ∧
    ((o.prompt.isSome = true ∨ o.promptTitle.isSome = true) → dv.showInputMessage = some true) := by
  have hf := dvConstruct_ok_fields o dv o' h
  exact ⟨fun he => (hf.1 he).1, fun hp => (hf.2 hp).1⟩

/-- C5 witness: `error` and `prompt` present with both show flags explicitly
`false`: the constructed rule has both flags `true`. -/
theorem dv_error_title_force_show_messages_witness :
    dvConstruct optsC5 = .ok (dvC5, optsC5After) ∧
    optsC5.showErrorMessage = some (.jb false) ∧
    optsC5.showInputMessage = some (.jb false) ∧
    dvC5.showErrorMessage = some true ∧
    dvC5.showInputMessage = some true := by
  have h := dv_error_title_force_show_messages optsC5 dvC5 optsC5After (by decide)
  exact ⟨by decide, rfl, rfl, h.1 (Or.inl rfl), h.2 (Or.inl rfl)⟩

/-- C10: the constructor mutates the caller's options object: whenever
construction succeeds with `error` or `errorTitle` present, the caller-owned
`opts.showErrorMessage` has been overwritten with `true` (and likewise
`opts.showInputMessage` when `prompt` or `promptTitle` is present), even when
the caller explicitly passed `false`. -/
theorem dvConstruct_mutates_caller_opts (o : DVOpts) (dv : DataValidation) (o' : DVOpts)
    (h : dvConstruct o = .ok (dv, o')) :
    ((o.error.isSome = true ∨ o.errorTitle.isSome = true) →
       o'.showErrorMessage = some (.jb true)) ∧
    ((o.prompt.isSome = true ∨ o.promptTitle.isSome = true) →
       o'.showInputMessage = some (.jb true)) := by
  have hf := dvConstruct_ok_fields o dv o' h
  exact ⟨fun he => (hf.1 he).2, fun hp => (hf.2 hp).2⟩

/-- C10 witness: with `errorTitle`/`promptTitle` present and the show flags
explicitly `false`, the returned options object carries `true` in both flags
and is observably different from the caller's original object. -/
theorem dvConstruct_mutates_caller_opts_witness :
    dvConstruct optsC10 = .ok (dvC10, optsC10After) ∧
    optsC10.showErrorMessage = some (.jb false) ∧
    optsC10After.showErrorMessage = some (.jb true) ∧
    optsC10After.showInputMessage = some (.jb true) ∧
    ¬ optsC10After = optsC10 := by
  have h := dvConstruct_mutates_caller_opts optsC10 dvC10 optsC10After (by decide)
  exact ⟨by decide, rfl, h.1 (Or.inr rfl), h.2 (Or.inr rfl), by decide⟩

end Excel4Node
